import Mathlib

/-!
Verification of the price-series calculator in `src/main.py`.

The script has two components: `EnvManager` (a `.env`-backed configuration
lookup) and `YFinanceService` (fetches a historical price table and derives
adjusted-close and return series).  We embed the relevant data model and
operations shallowly:

* a pandas `DataFrame` of the columns the code reads becomes a structure of
  lists of rationals (dates are positions in the ascending date order);
* pandas column operations (`replace`, `iloc[::-1]`, `cumprod`, `cumsum`,
  elementwise `/` and `-`, `pct_change`, `shift`, `dropna`) become list
  functions;
* Python exceptions become an explicit `Except PyError` result, and each
  method that reads or writes `self` becomes a function from the service
  state that also returns the posterior state;
* `np.log` is floating point in the source; we model it as an abstract
  function parameter `log : ℚ → ℚ`, so theorems about the logarithmic
  return series hold for the structure of the computation, not for a
  particular numeric approximation of `ln`.
-/

/-- Severity of a `logging` call in the script. -/
inductive LogLevel where
  | info
  | warning
  | error
deriving DecidableEq, Repr

/-- One emitted log line (severity and message). -/
structure LogEntry where
  level : LogLevel
  msg : String
deriving DecidableEq, Repr

/-- The Python exception classes the script can raise, with their message. -/
inductive PyError where
  | httpError (msg : String)
  | valueError (msg : String)
  | fileNotFoundError (msg : String)
  | attributeError (msg : String)
deriving DecidableEq, Repr

/-- The columns of the fetched price table that `main.py` reads.  A pandas
`DataFrame` indexed by ascending dates; position `i` in each list is the row
for the `i`-th date.  `adjClose` is `some` exactly when the raw table carries
an `Adj Close` column. -/
structure DataFrame where
  close : List ℚ
  dividends : List ℚ
  stockSplits : List ℚ
  adjClose : Option (List ℚ)
deriving DecidableEq, Repr

/-- `df.empty` in pandas: the table has no rows. -/
def DataFrame.isEmpty (df : DataFrame) : Bool :=
  df.close.isEmpty

/-- Pandas `Series.replace(0, 1)`: every value equal to `0` becomes `1`. -/
def replace0with1 (xs : List ℚ) : List ℚ :=
  xs.map fun x => if x = 0 then 1 else x

/-- Pandas `Series.cumprod()`: running product, `out[i] = xs[0] * ... * xs[i]`. -/
def cumprod : List ℚ → List ℚ
  | [] => []
  | x :: xs => x :: (cumprod xs).map fun y => x * y

/-- Pandas `Series.cumsum()`: running sum, `out[i] = xs[0] + ... + xs[i]`. -/
def cumsum : List ℚ → List ℚ
  | [] => []
  | x :: xs => x :: (cumsum xs).map fun y => x + y

/-- The `adjustment_factor` series of `calculate_adjusted_close`:
`data['Stock Splits'].replace(0, 1).iloc[::-1].cumprod().iloc[::-1]`. -/
def adjustment_factor (splits : List ℚ) : List ℚ :=
  (cumprod (replace0with1 splits).reverse).reverse

/-- The adjusted-close computation of `YFinanceService.calculate_adjusted_close`
as a function of the fetched table: if the table has an `Adj Close` column it
is returned unchanged, otherwise
`Close / adjustment_factor - Dividends.cumsum()` (elementwise, aligned by
date). -/
def DataFrame.adjustedClose (df : DataFrame) : List ℚ :=
  match df.adjClose with
  | some ac => ac
  | none =>
    let adjusted := List.zipWith (fun c f => c / f) df.close (adjustment_factor df.stockSplits)
    List.zipWith (fun c d => c - d) adjusted (cumsum df.dividends)

/-- The mutable state of a `YFinanceService` instance: the symbol it was
constructed with and the two lazily populated fields. -/
structure YFinanceService where
  symbol : String
  data : Option DataFrame
  adjusted_close : Option (List ℚ)
deriving DecidableEq, Repr

/-- `YFinanceService.__init__`: both data fields start as `None`. -/
def YFinanceService.init (symbol : String) : YFinanceService :=
  { symbol := symbol, data := none, adjusted_close := none }

/-- Message of the `HTTPError` raised when the fetched table is empty. -/
def noDataFoundMsg (symbol : String) : String :=
  "No data found for symbol: " ++ symbol

/-- Message of the `HTTPError` re-raised by the `except` clause of
`get_historical_data`, wrapping the string form of the caught exception. -/
def fetchFailedMsg (symbol cause : String) : String :=
  "Failed to fetch data for symbol: " ++ symbol ++ ", error: " ++ cause

/-- `YFinanceService.get_historical_data`.  The external provider call
`self._ticker.history(period, interval)` is modelled by its outcome
`providerResult`: either the fetched table or the message of the exception it
raised.  Inside the `try` block: the table is stored in `self.data`; an empty
table raises `HTTPError(noDataFoundMsg)`; otherwise the adjusted close is
computed, stored in `self.adjusted_close` and returned.  The `except` clause
catches every exception `e` from the block (including the empty-table one)
and re-raises `HTTPError(fetchFailedMsg symbol (str e))`. -/
def get_historical_data (st : YFinanceService) (providerResult : Except String DataFrame) :
    Except PyError (List ℚ) × YFinanceService :=
  match providerResult with
  | Except.error e =>
    (Except.error (PyError.httpError (fetchFailedMsg st.symbol e)), st)
  | Except.ok df =>
    let st1 : YFinanceService := { st with data := some df }
    if df.isEmpty then
      (Except.error (PyError.httpError
        (fetchFailedMsg st1.symbol (noDataFoundMsg st1.symbol))), st1)
    else
      let ac := df.adjustedClose
      (Except.ok ac, { st1 with adjusted_close := some ac })

/-- `YFinanceService.calculate_adjusted_close` as a method: it reads
`self.data` and assigns nothing to `self`.  Calling it with `self.data` still
`None` would be Python `AttributeError` (accessing `.columns` on `None`). -/
def calculate_adjusted_close (st : YFinanceService) :
    Except PyError (List ℚ) × YFinanceService :=
  match st.data with
  | none => (Except.error (PyError.attributeError
      "NoneType object has no attribute columns"), st)
  | some df => (Except.ok df.adjustedClose, st)

/-- Pandas `Series.pct_change()`: entry `0` is NaN (`none`), entry `i ≥ 1` is
`xs[i] / xs[i-1] - 1`. -/
def pct_change (xs : List ℚ) : List (Option ℚ) :=
  match xs with
  | [] => []
  | x :: rest => none :: List.zipWith (fun prev cur => some (cur / prev - 1)) (x :: rest) rest

/-- `np.log(series / series.shift(1))` with `np.log` abstracted as `log`:
entry `0` is NaN (`none`), entry `i ≥ 1` is `log (xs[i] / xs[i-1])`. -/
def log_change (log : ℚ → ℚ) (xs : List ℚ) : List (Option ℚ) :=
  match xs with
  | [] => []
  | x :: rest => none :: List.zipWith (fun prev cur => some (log (cur / prev))) (x :: rest) rest

/-- Pandas `Series.dropna()`: keep the defined entries. -/
def dropna {α : Type} (xs : List (Option α)) : List α :=
  xs.filterMap id

/-- Message of the `ValueError` raised by `calculate_returns` when
`self.adjusted_close` is `None`. -/
def adjustedCloseMissingMsg : String :=
  "Adjusted close prices not calculated. Please call get_historical_data first."

/-- Message of the `ValueError` raised by `calculate_returns` on an
unsupported `return_type`, listing the two valid choices. -/
def invalidReturnTypeMsg : String :=
  "Invalid return type. Choose \x27simple\x27 or \x27log\x27."

/-- `YFinanceService.calculate_returns`.  Fails when `self.adjusted_close` is
`None`; computes `pct_change().dropna()` for `"simple"`, the `np.log` series
(`dropna`-ed) for `"log"`, and raises `ValueError(invalidReturnTypeMsg)` for
any other string.  The trailing `except` re-raises unchanged, so it does not
alter the observable result.  No assignment to `self` occurs. -/
def calculate_returns (log : ℚ → ℚ) (st : YFinanceService) (return_type : String) :
    Except PyError (List ℚ) × YFinanceService :=
  match st.adjusted_close with
  | none => (Except.error (PyError.valueError adjustedCloseMissingMsg), st)
  | some ac =>
    if return_type = "simple" then
      (Except.ok (dropna (pct_change ac)), st)
    else if return_type = "log" then
      (Except.ok (dropna (log_change log ac)), st)
    else
      (Except.error (PyError.valueError invalidReturnTypeMsg), st)

/-- The process environment as seen by the script: whether `find_dotenv`
locates a `.env` file, and the key/value store `os.getenv` consults after
`load_dotenv`. -/
structure DotEnv where
  found : Bool
  vars : String → Option String

/-- The mutable state of an `EnvManager`: the last queried key. -/
structure EnvManager where
  key : Option String
deriving DecidableEq, Repr

/-- `EnvManager.__init__`: raises `FileNotFoundError` when no `.env` file is
found, else initializes `self.key = None`. -/
def EnvManager.create (env : DotEnv) : Except PyError EnvManager :=
  if env.found then Except.ok { key := none }
  else Except.error (PyError.fileNotFoundError
    "Could not find the .env file. Please ensure it exists in the project root.")

/-- `EnvManager.get_env_variable`: looks `self.key` up with `os.getenv`,
logs a warning when the value is absent, and returns the value (possibly the
`None` marker).  The `self.key = None` branch is unreachable through
`validate_env`, which always assigns the key first. -/
def get_env_variable (env : DotEnv) (m : EnvManager) : Option String × List LogEntry :=
  match m.key with
  | none => (none, [])
  | some k =>
    match env.vars k with
    | none => (none, [{ level := LogLevel.warning, msg := k ++ " is not set in the .env file" }])
    | some v => (some v, [])

/-- `EnvManager.validate_env`: stores the key in `self.key`, then delegates to
`get_env_variable`.  Returns the looked-up value, the emitted log lines, and
the posterior manager state. -/
def validate_env (env : DotEnv) (_m : EnvManager) (key : String) :
    (Option String × List LogEntry) × EnvManager :=
  let m2 : EnvManager := { key := some key }
  (get_env_variable env m2, m2)

/-! ### Closed forms for the pandas primitives -/

theorem cumprod_length (xs : List ℚ) : (cumprod xs).length = xs.length := by
  induction xs with
  | nil => rfl
  | cons x xs ih => simp [cumprod, ih]

theorem cumprod_getElem (xs : List ℚ) (i : ℕ) (h : i < (cumprod xs).length) :
    (cumprod xs)[i] = (xs.take (i + 1)).prod := by
  induction xs generalizing i with
  | nil => simp [cumprod] at h
  | cons x xs ih =>
    cases i with
    | zero => simp [cumprod]
    | succ j =>
      have hj : j < (cumprod xs).length := by
        simpa [cumprod] using h
      simp [cumprod, List.getElem_map, ih j hj, List.take_succ_cons]

theorem cumsum_length (xs : List ℚ) : (cumsum xs).length = xs.length := by
  induction xs with
  | nil => rfl
  | cons x xs ih => simp [cumsum, ih]

theorem cumsum_getElem (xs : List ℚ) (i : ℕ) (h : i < (cumsum xs).length) :
    (cumsum xs)[i] = (xs.take (i + 1)).sum := by
  induction xs generalizing i with
  | nil => simp [cumsum] at h
  | cons x xs ih =>
    cases i with
    | zero => simp [cumsum]
    | succ j =>
      have hj : j < (cumsum xs).length := by
        simpa [cumsum] using h
      simp [cumsum, List.getElem_map, ih j hj, List.take_succ_cons]

theorem replace0with1_length (xs : List ℚ) : (replace0with1 xs).length = xs.length := by
  simp [replace0with1]

theorem adjustment_factor_length (splits : List ℚ) :
    (adjustment_factor splits).length = splits.length := by
  simp [adjustment_factor, cumprod_length, replace0with1_length]

/-- The reversed cumulative product, re-reversed, is the suffix product: the
adjustment factor at date `i` is the product of the (0-to-1 corrected) split
ratios at the dates `i, i+1, ..., n-1`. -/
theorem adjustment_factor_getElem (splits : List ℚ) (i : ℕ)
    (h : i < (adjustment_factor splits).length) :
    (adjustment_factor splits)[i] =
      ((splits.drop i).map fun x => if x = 0 then 1 else x).prod := by
  have hlen : i < splits.length := by
    simpa [adjustment_factor_length] using h
  have hr : (replace0with1 splits).length = splits.length := replace0with1_length splits
  have hcp : (cumprod (replace0with1 splits).reverse).length = splits.length := by
    simp [cumprod_length, hr]
  have hidx : splits.length - 1 - i < (cumprod (replace0with1 splits).reverse).length := by
    rw [hcp]; omega
  have h1 : (adjustment_factor splits)[i] =
      (cumprod (replace0with1 splits).reverse)[splits.length - 1 - i] := by
    simp [adjustment_factor, List.getElem_reverse, hcp]
  rw [h1, cumprod_getElem _ _ hidx]
  have h2 : splits.length - 1 - i + 1 = splits.length - i := by omega
  rw [h2, List.take_reverse, hr]
  have h3 : splits.length - (splits.length - i) = i := by omega
  rw [h3, List.prod_reverse]
  simp [replace0with1, List.map_drop]

/-- Length of the computed adjusted close (table without an `Adj Close`
column, well-formed column lengths): one value per input row. -/
theorem adjustedClose_length (df : DataFrame) (hadj : df.adjClose = none)
    (hd : df.dividends.length = df.close.length)
    (hs : df.stockSplits.length = df.close.length) :
    df.adjustedClose.length = df.close.length := by
  simp [DataFrame.adjustedClose, hadj, List.length_zipWith, cumsum_length,
    adjustment_factor_length, hd, hs]

/-- Closed form of the computed adjusted close at date `i`:
`Close[i]` divided by the suffix product of the corrected split ratios,
minus the prefix sum of the dividends up to and including `i`. -/
theorem adjustedClose_getElem (df : DataFrame) (hadj : df.adjClose = none)
    (hd : df.dividends.length = df.close.length)
    (hs : df.stockSplits.length = df.close.length)
    (i : ℕ) (hi : i < df.close.length) :
    df.adjustedClose.get ⟨i, by rw [adjustedClose_length df hadj hd hs]; exact hi⟩ =
      df.close.get ⟨i, hi⟩ /
        ((df.stockSplits.drop i).map fun x => if x = 0 then 1 else x).prod -
      (df.dividends.take (i + 1)).sum := by
  have hif : i < (adjustment_factor df.stockSplits).length := by
    rw [adjustment_factor_length, hs]; exact hi
  have hic : i < (cumsum df.dividends).length := by
    rw [cumsum_length, hd]; exact hi
  simp only [List.get_eq_getElem, DataFrame.adjustedClose, hadj,
    List.getElem_zipWith, adjustment_factor_getElem _ _ hif,
    cumsum_getElem _ _ hic]

/-- `pct_change().dropna()` pairs each date with its predecessor:
entry `i` of the result is `xs[i+1] / xs[i] - 1`. -/
theorem dropna_pct_change (xs : List ℚ) :
    dropna (pct_change xs) =
      List.zipWith (fun prev cur => cur / prev - 1) xs xs.tail := by
  cases xs with
  | nil => rfl
  | cons x rest =>
    simp only [pct_change, dropna, List.filterMap_cons, List.tail_cons]
    rw [show (fun (prev cur : ℚ) => some (cur / prev - 1)) =
        (fun prev cur => some ((fun p c => c / p - 1) prev cur)) from rfl,
      ← List.map_zipWith some, List.filterMap_map]
    simp [List.filterMap_some, Function.comp]

/-- The `np.log` series, `dropna`-ed, pairs each date with its predecessor:
entry `i` of the result is `log (xs[i+1] / xs[i])`. -/
theorem dropna_log_change (log : ℚ → ℚ) (xs : List ℚ) :
    dropna (log_change log xs) =
      List.zipWith (fun prev cur => log (cur / prev)) xs xs.tail := by
  cases xs with
  | nil => rfl
  | cons x rest =>
    simp only [log_change, dropna, List.filterMap_cons, List.tail_cons]
    rw [show (fun (prev cur : ℚ) => some (log (cur / prev))) =
        (fun prev cur => some ((fun p c => log (c / p)) prev cur)) from rfl,
      ← List.map_zipWith some, List.filterMap_map]
    simp [List.filterMap_some, Function.comp]

/-- With nonzero predecessors, `cur / prev - 1` is the simple-return quotient
`(cur - prev) / prev`. -/
theorem zipWith_pct_eq_simple (l₁ l₂ : List ℚ) (h : ∀ x ∈ l₁, x ≠ 0) :
    List.zipWith (fun prev cur => cur / prev - 1) l₁ l₂ =
      List.zipWith (fun prev cur => (cur - prev) / prev) l₁ l₂ := by
  induction l₁ generalizing l₂ with
  | nil => simp
  | cons a t ih =>
    cases l₂ with
    | nil => simp
    | cons b t₂ =>
      have ha : a ≠ 0 := h a (by simp)
      rw [List.zipWith_cons_cons, List.zipWith_cons_cons,
        ih t₂ (fun x hx => h x (by simp [hx]))]
      congr 1
      rw [sub_div, div_self ha]

/-- Suffix product of the corrected split ratios for a table whose only split
is a ratio `2` at position `d`: the factor is `2` at and before `d`, `1`
strictly after `d`. -/
theorem single_split_suffix_prod (d m i : ℕ) :
    (((List.replicate d (0 : ℚ) ++ 2 :: List.replicate m 0).drop i).map
        fun x => if x = 0 then 1 else x).prod = if i ≤ d then 2 else 1 := by
  by_cases hle : i ≤ d
  · rw [List.drop_append_of_le_length (by simpa using hle), if_pos hle]
    simp only [List.drop_replicate, List.map_append, List.map_replicate,
      List.map_cons, List.prod_append, List.prod_cons, List.prod_replicate]
    norm_num
  · rw [if_neg hle]
    push_neg at hle
    obtain ⟨j, rfl⟩ : ∃ j, i = d + 1 + j := ⟨i - (d + 1), by omega⟩
    have hsplit : List.replicate d (0 : ℚ) ++ 2 :: List.replicate m 0 =
        (List.replicate d (0 : ℚ) ++ [2]) ++ List.replicate m 0 := by simp
    rw [hsplit,
      show d + 1 + j = (List.replicate d (0 : ℚ) ++ [2]).length + j by simp,
      List.drop_append]
    simp [List.drop_replicate, List.map_replicate, List.prod_replicate]

/-- Reduction of `calculate_returns` when an adjusted-close series exists. -/
theorem calculate_returns_some (log : ℚ → ℚ) (st : YFinanceService) (ac : List ℚ)
    (h : st.adjusted_close = some ac) (return_type : String) :
    calculate_returns log st return_type =
      if return_type = "simple" then (Except.ok (dropna (pct_change ac)), st)
      else if return_type = "log" then (Except.ok (dropna (log_change log ac)), st)
      else (Except.error (PyError.valueError invalidReturnTypeMsg), st) := by
  unfold calculate_returns
  rw [h]

/-- Reduction of `calculate_returns` when no adjusted-close series exists. -/
theorem calculate_returns_none (log : ℚ → ℚ) (st : YFinanceService)
    (h : st.adjusted_close = none) (return_type : String) :
    calculate_returns log st return_type =
      (Except.error (PyError.valueError adjustedCloseMissingMsg), st) := by
  unfold calculate_returns
  rw [h]

/-! ### The claims -/

/-- C4: for every raw table without a precomputed adjusted-close column (and
well-formed column lengths), the computed adjusted close has one value per
input row, and its value at every date `i` is `Close[i]` divided by the
running product of the split ratios (each `0` first replaced by `1`) taken on
the date-reversed order and re-reversed — i.e. the suffix product from `i`
on — minus the cumulative sum of the dividends from the earliest date up to
and including `i`. -/
theorem C4_adjustedClose_formula (df : DataFrame) (hadj : df.adjClose = none)
    (hd : df.dividends.length = df.close.length)
    (hs : df.stockSplits.length = df.close.length) :
    df.adjustedClose.length = df.close.length ∧
    ∀ (i : ℕ) (hi : i < df.close.length),
      df.adjustedClose.get ⟨i, by rw [adjustedClose_length df hadj hd hs]; exact hi⟩ =
        df.close.get ⟨i, hi⟩ /
          ((df.stockSplits.drop i).map fun x => if x = 0 then 1 else x).prod -
        (df.dividends.take (i + 1)).sum :=
  ⟨adjustedClose_length df hadj hd hs, fun i hi => adjustedClose_getElem df hadj hd hs i hi⟩

/-- Witness for C4 at the concrete table
`Close = [10, 20]`, `Dividends = [1, 1]`, `Stock Splits = [0, 2]`:
the adjusted close at date `1` is `20 / 2 - 2 = 8`. -/
theorem C4_witness :
    (DataFrame.mk [10, 20] [1, 1] [0, 2] none).adjustedClose.get
      ⟨1, by rw [adjustedClose_length _ rfl (by norm_num) (by norm_num)]; norm_num⟩ = 8 := by
  have h := (C4_adjustedClose_formula (DataFrame.mk [10, 20] [1, 1] [0, 2] none) rfl
    (by norm_num) (by norm_num)).2 1 (by norm_num)
  exact h.trans (by norm_num)

/-- C9: the divisor used by the adjusted-close computation — the re-reversed
cumulative product of the split ratios after the `0 → 1` replacement — is
nonzero at every date, so `Close[i] / adjustment_factor[i]` never divides by
zero. -/
theorem C9_adjustment_factor_ne_zero (splits : List ℚ) (i : ℕ)
    (h : i < (adjustment_factor splits).length) :
    (adjustment_factor splits).get ⟨i, h⟩ ≠ 0 := by
  rw [List.get_eq_getElem, adjustment_factor_getElem splits i h]
  refine List.prod_ne_zero ?_
  intro hmem
  rcases List.mem_map.mp hmem with ⟨x, -, hfx⟩
  by_cases hx : x = 0
  · rw [if_pos hx] at hfx
    exact one_ne_zero hfx
  · rw [if_neg hx] at hfx
    exact hx hfx

/-- Witness for C9 at the concrete split column `[0, 2, 3]` and date `1`. -/
theorem C9_witness :
    (adjustment_factor [0, 2, 3]).get
      ⟨1, by rw [adjustment_factor_length]; norm_num⟩ ≠ 0 :=
  C9_adjustment_factor_ne_zero [0, 2, 3] 1 (by rw [adjustment_factor_length]; norm_num)

/-- C5: on a non-empty raw table that already carries an `Adj Close` column,
`get_historical_data` returns that column verbatim, without applying the
split/dividend adjustment. -/
theorem C5_adjclose_verbatim (st : YFinanceService) (df : DataFrame) (ac : List ℚ)
    (hac : df.adjClose = some ac) (hne : df.isEmpty = false) :
    (get_historical_data st (Except.ok df)).1 = Except.ok ac := by
  simp [get_historical_data, hne, DataFrame.adjustedClose, hac]

/-- Witness for C5: a one-row table with an `Adj Close` column `[42]` is
returned verbatim even though the computed adjustment would give `[10]`. -/
theorem C5_witness :
    (get_historical_data (YFinanceService.init "MSFT")
      (Except.ok (DataFrame.mk [10] [0] [0] (some [42])))).1 = Except.ok [42] :=
  C5_adjclose_verbatim (YFinanceService.init "MSFT")
    (DataFrame.mk [10] [0] [0] (some [42])) [42] rfl rfl

/-- C7: whenever no adjusted-close series has been stored by a prior
successful fetch (`self.adjusted_close is None`), `calculate_returns` fails
with the `ValueError` whose message says to call `get_historical_data`
first — for every return-kind argument. -/
theorem C7_missing_adjusted_close (log : ℚ → ℚ) (st : YFinanceService)
    (return_type : String) (h : st.adjusted_close = none) :
    calculate_returns log st return_type =
      (Except.error (PyError.valueError adjustedCloseMissingMsg), st) :=
  calculate_returns_none log st h return_type

/-- Witness for C7: a freshly constructed service refuses `"simple"`. -/
theorem C7_witness :
    calculate_returns id (YFinanceService.init "AAPL") "simple" =
      (Except.error (PyError.valueError adjustedCloseMissingMsg),
        YFinanceService.init "AAPL") :=
  C7_missing_adjusted_close id (YFinanceService.init "AAPL") "simple" rfl

/-- C8: `validate_env` on a key absent from the environment store emits a
warning-level log line and returns the absent marker; and for every key it
returns exactly the store lookup — its result type has no failure outcome,
so a successfully initialized manager never raises on lookup. -/
theorem C8_validate_env (env : DotEnv) (m : EnvManager) (key : String)
    (habsent : env.vars key = none) :
    validate_env env m key =
      ((none, [{ level := LogLevel.warning,
                 msg := key ++ " is not set in the .env file" }]),
        { key := some key }) ∧
    ∀ k : String, ((validate_env env m k).1).1 = env.vars k := by
  constructor
  · simp [validate_env, get_env_variable, habsent]
  · intro k
    cases hk : env.vars k <;> simp [validate_env, get_env_variable, hk]

/-- Witness for C8: looking up `ALPHA_VANTAGE_API_KEY` in an empty store
warns and returns the absent marker. -/
theorem C8_witness :
    validate_env ⟨true, fun _ => none⟩ ⟨none⟩ "ALPHA_VANTAGE_API_KEY" =
      ((none, [{ level := LogLevel.warning,
                 msg := "ALPHA_VANTAGE_API_KEY" ++ " is not set in the .env file" }]),
        ⟨some "ALPHA_VANTAGE_API_KEY"⟩) :=
  (C8_validate_env ⟨true, fun _ => none⟩ ⟨none⟩ "ALPHA_VANTAGE_API_KEY" rfl).1

/-- C10: neither `calculate_adjusted_close` nor `calculate_returns` assigns
to `self`: both return the state unchanged (on success and on failure), and
consequently two consecutive `calculate_returns` calls with the same kind
produce the same result. -/
theorem C10_no_state_mutation (log : ℚ → ℚ) (st : YFinanceService)
    (return_type : String) :
    (calculate_adjusted_close st).2 = st ∧
    (calculate_returns log st return_type).2 = st ∧
    (calculate_returns log ((calculate_returns log st return_type).2) return_type).1 =
      (calculate_returns log st return_type).1 := by
  have h1 : (calculate_adjusted_close st).2 = st := by
    cases hd : st.data <;> simp [calculate_adjusted_close, hd]
  have h2 : (calculate_returns log st return_type).2 = st := by
    cases ha : st.adjusted_close with
    | none => rw [calculate_returns_none log st ha return_type]
    | some ac =>
      rw [calculate_returns_some log st ac ha return_type]
      split_ifs <;> rfl
  exact ⟨h1, h2, by rw [h2]⟩

/-- C1 counterexample: on the table `Close = [10, 10, 10]` with a single
2-for-1 split at date `1` and no dividends, the fetch returns the adjusted
close `[5, 5, 10]` — the split date itself is divided by 2 — whereas the
claim predicts `[5, 10, 10]` (unchanged on and after the split date). -/
theorem C1_counterexample :
    (get_historical_data (YFinanceService.init "AAPL")
        (Except.ok (DataFrame.mk [10, 10, 10] [0, 0, 0] [0, 2, 0] none))).1 =
      Except.ok [5, 5, 10] ∧
    (get_historical_data (YFinanceService.init "AAPL")
        (Except.ok (DataFrame.mk [10, 10, 10] [0, 0, 0] [0, 2, 0] none))).1 ≠
      Except.ok [5, 10, 10] := by
  have hval : (get_historical_data (YFinanceService.init "AAPL")
      (Except.ok (DataFrame.mk [10, 10, 10] [0, 0, 0] [0, 2, 0] none))).1 =
      Except.ok [5, 5, 10] := by
    norm_num [get_historical_data, YFinanceService.init, DataFrame.isEmpty,
      DataFrame.adjustedClose, adjustment_factor, replace0with1, cumprod, cumsum]
  refine ⟨hval, ?_⟩
  rw [hval]
  intro hcontra
  norm_num at hcontra

/-- C1 amended: with the single 2-for-1 split at date `d` and no dividends,
the adjusted close equals `Close / 2` at every date up to AND INCLUDING `d`
(the backward cumulative product includes the split date itself), and equals
`Close` unchanged strictly after `d`. -/
theorem C1_amended_single_split (st : YFinanceService) (close div splits : List ℚ)
    (d m : ℕ)
    (hs : splits = List.replicate d 0 ++ 2 :: List.replicate m 0)
    (hdv : div = List.replicate (d + 1 + m) 0)
    (hc : close.length = d + 1 + m) :
    (get_historical_data st (Except.ok (DataFrame.mk close div splits none))).1 =
      Except.ok (close.mapIdx fun i c => if i ≤ d then c / 2 else c) := by
  have hd' : div.length = close.length := by rw [hdv, hc]; simp
  have hs' : splits.length = close.length := by
    rw [hs, hc]; simp; omega
  have hnonempty : (DataFrame.mk close div splits none).isEmpty = false := by
    rcases close with _ | ⟨c, cs⟩
    · simp only [List.length_nil] at hc
      omega
    · rfl
  have hred : (get_historical_data st
      (Except.ok (DataFrame.mk close div splits none))).1 =
      Except.ok (DataFrame.mk close div splits none).adjustedClose := by
    simp [get_historical_data, hnonempty]
  rw [hred]
  congr 1
  apply List.ext_getElem
  · rw [adjustedClose_length _ rfl hd' hs', List.length_mapIdx]
  · intro n h₁ h₂
    have hn : n < close.length := by
      rw [adjustedClose_length _ rfl hd' hs'] at h₁; exact h₁
    have hmain := adjustedClose_getElem (DataFrame.mk close div splits none)
      rfl hd' hs' n hn
    rw [List.get_eq_getElem, List.get_eq_getElem] at hmain
    rw [hmain, List.getElem_mapIdx]
    show close[n] / ((splits.drop n).map fun x => if x = 0 then 1 else x).prod -
        (div.take (n + 1)).sum = _
    rw [hs, single_split_suffix_prod d m n, hdv]
    simp only [List.take_replicate, List.sum_replicate, smul_zero, sub_zero]
    by_cases hnd : n ≤ d <;> simp [hnd]

/-- Witness for the amended C1: `Close = [10, 10, 10]`, single split `2` at
date `1`, no dividends, gives `[10/2, 10/2, 10]`. -/
theorem C1_amended_witness :
    (get_historical_data (YFinanceService.init "AAPL")
        (Except.ok (DataFrame.mk [10, 10, 10] [0, 0, 0] [0, 2, 0] none))).1 =
      Except.ok ([10, 10, 10].mapIdx fun i c => if i ≤ 1 then c / 2 else c) :=
  C1_amended_single_split (YFinanceService.init "AAPL") [10, 10, 10] [0, 0, 0]
    [0, 2, 0] 1 1 rfl rfl rfl

/-- C2 counterexample: with an adjusted-close series present, the kind string
`"logarithmic"` does not succeed: the code only accepts `"log"`, so
`"logarithmic"` falls into the invalid-return-type branch and raises the
`ValueError` listing the two valid choices. -/
theorem C2_counterexample :
    (calculate_returns id (YFinanceService.mk "AAPL" none (some [100, 110]))
        "logarithmic").1 =
      Except.error (PyError.valueError invalidReturnTypeMsg) ∧
    (calculate_returns id (YFinanceService.mk "AAPL" none (some [100, 110]))
        "logarithmic").1 ≠
      Except.ok [id ((110 : ℚ) / 100)] := by
  constructor
  · rw [calculate_returns_some id _ [100, 110] rfl, if_neg (by decide),
      if_neg (by decide)]
  · rw [calculate_returns_some id _ [100, 110] rfl, if_neg (by decide),
      if_neg (by decide)]
    simp

/-- C2 amended: with an adjusted-close series present, `calculate_returns`
succeeds exactly for the kind strings `"simple"` and `"log"` (the code's
name for the logarithmic kind); `"log"` yields
`return[d] = log (adjusted[d] / adjusted[d-1])` (first date dropped), and any
other string — including `"weekly"` and `"logarithmic"` — fails with the
`ValueError` listing the two valid choices. -/
theorem C2_amended_return_kinds (log : ℚ → ℚ) (st : YFinanceService) (ac : List ℚ)
    (h : st.adjusted_close = some ac) (kind : String) :
    ((calculate_returns log st "simple").1 = Except.ok (dropna (pct_change ac))) ∧
    ((calculate_returns log st "log").1 =
      Except.ok (List.zipWith (fun prev cur => log (cur / prev)) ac ac.tail)) ∧
    (kind ≠ "simple" → kind ≠ "log" →
      (calculate_returns log st kind).1 =
        Except.error (PyError.valueError invalidReturnTypeMsg)) := by
  refine ⟨?_, ?_, ?_⟩
  · rw [calculate_returns_some log st ac h, if_pos rfl]
  · rw [calculate_returns_some log st ac h, if_neg (by decide), if_pos rfl,
      dropna_log_change]
  · intro h1 h2
    rw [calculate_returns_some log st ac h, if_neg h1, if_neg h2]

/-- Witness for the amended C2: on adjusted close `[100, 110]` the `"log"`
kind returns `[log (110/100)]`, and `"weekly"` raises the `ValueError`. -/
theorem C2_amended_witness :
    (calculate_returns id (YFinanceService.mk "AAPL" none (some [100, 110]))
        "log").1 = Except.ok [id ((110 : ℚ) / 100)] ∧
    (calculate_returns id (YFinanceService.mk "AAPL" none (some [100, 110]))
        "weekly").1 = Except.error (PyError.valueError invalidReturnTypeMsg) := by
  have h := C2_amended_return_kinds id
    (YFinanceService.mk "AAPL" none (some [100, 110])) [100, 110] rfl "weekly"
  refine ⟨?_, h.2.2 (by decide) (by decide)⟩
  rw [h.2.1]
  norm_num [List.zipWith_cons_cons]

/-- C3 counterexample: an empty fetched table is reported with exactly the
same error value as a provider failure whose cause string is the no-data
message — the inner no-data `HTTPError` is caught by the `except` clause and
re-wrapped by the generic fetch-failure `HTTPError`, so the two cases do not
carry distinct error kinds. -/
theorem C3_counterexample :
    (get_historical_data (YFinanceService.init "AAPL")
        (Except.ok (DataFrame.mk [] [] [] none))).1 =
      Except.error (PyError.httpError
        (fetchFailedMsg "AAPL" (noDataFoundMsg "AAPL"))) ∧
    (get_historical_data (YFinanceService.init "AAPL")
        (Except.ok (DataFrame.mk [] [] [] none))).1 =
      (get_historical_data (YFinanceService.init "AAPL")
        (Except.error (noDataFoundMsg "AAPL"))).1 :=
  ⟨rfl, rfl⟩

/-- C3 amended: an empty fetched table fails with an `HTTPError` whose
message is the generic fetch-failure wrapper naming the symbol and wrapping
the no-data message (which also names the symbol); every other fetch failure
fails with the same `HTTPError` kind wrapping its cause — the no-data case is
distinguished only by message content, not by a distinct error kind. -/
theorem C3_amended_empty_fetch (st : YFinanceService) (df : DataFrame)
    (cause : String) (hempty : df.isEmpty = true) :
    (get_historical_data st (Except.ok df)).1 =
      Except.error (PyError.httpError
        (fetchFailedMsg st.symbol (noDataFoundMsg st.symbol))) ∧
    (get_historical_data st (Except.error cause)).1 =
      Except.error (PyError.httpError (fetchFailedMsg st.symbol cause)) := by
  constructor
  · simp [get_historical_data, hempty]
  · rfl

/-- Witness for the amended C3 at an empty table for symbol `TSLA`. -/
theorem C3_amended_witness :
    (get_historical_data (YFinanceService.init "TSLA")
        (Except.ok (DataFrame.mk [] [] [] none))).1 =
      Except.error (PyError.httpError
        (fetchFailedMsg "TSLA" (noDataFoundMsg "TSLA"))) :=
  (C3_amended_empty_fetch (YFinanceService.init "TSLA")
    (DataFrame.mk [] [] [] none) "boom" rfl).1

/-- C6: with an adjusted-close series of nonzero values present,
`calculate_returns "simple"` returns the series
`return[d] = (adjusted[d] - adjusted[d-1]) / adjusted[d-1]` with the first
date dropped, so the result is exactly one element shorter than the
adjusted-close series. -/
theorem C6_simple_returns (log : ℚ → ℚ) (st : YFinanceService) (ac : List ℚ)
    (h : st.adjusted_close = some ac) (hnz : ∀ x ∈ ac, x ≠ 0) :
    (calculate_returns log st "simple").1 =
      Except.ok (List.zipWith (fun prev cur => (cur - prev) / prev) ac ac.tail) ∧
    (List.zipWith (fun prev cur => (cur - prev) / prev) ac ac.tail).length =
      ac.length - 1 := by
  constructor
  · rw [calculate_returns_some log st ac h, if_pos rfl]
    show Except.ok (dropna (pct_change ac)) = _
    rw [dropna_pct_change, zipWith_pct_eq_simple ac ac.tail hnz]
  · rw [List.length_zipWith, List.length_tail]
    exact min_eq_right (Nat.sub_le _ _)

/-- Witness for C6: on adjusted close `[100, 110, 99]` the simple returns are
`[0.10, -0.10]`, two elements for the three input dates. -/
theorem C6_witness :
    (calculate_returns id (YFinanceService.mk "AAPL" none (some [100, 110, 99]))
        "simple").1 = Except.ok [1/10, -1/10] := by
  have h := (C6_simple_returns id
    (YFinanceService.mk "AAPL" none (some [100, 110, 99])) [100, 110, 99] rfl
    (by norm_num)).1
  rw [h]
  norm_num [List.zipWith_cons_cons]

